import Mathlib

/-!
Shallow embedding of the serial-transport core of the HkqCircuitDesign
repository: `src/uart.py` (the `UARTPort` transport wrapper with its
timeout-bounded polling `read`) and `src/lib/urm37.py` (the URM37 sensor
driver: command-frame construction, response-frame validation, distance
and temperature measurement).

Conventions of the embedding:
* Python `bytes` values are `List Nat` whose elements are byte values.
* Python `None` results become `Option.none`.
* Python exceptions raised by the transport become `Except.error`;
  the driver functions are written in the `Except` monad so that a
  transport fault propagates while the driver itself only ever
  produces `Except.ok`.
* Millisecond clocks are explicit `Nat` (absolute time) arguments;
  the MicroPython modular tick counter is modelled separately for the
  wraparound analysis of `_ticks_diff`.
* Python float division (`value / 10.0`) is modelled as exact division
  in `ℚ`.
-/

namespace Uart

/-- MicroPython tick period: ticks wrap modulo `2 ^ 30` (= 1073741824). -/
def TICKS_PERIOD : Nat := 1073741824

/-- Half the tick period, `2 ^ 29` (= 536870912). -/
def TICKS_HALF : Nat := 536870912

/-- The MicroPython face of `_ticks_ms`: the absolute millisecond time `t`
as seen through the wrapping tick counter (`time.ticks_ms`). -/
def ticksMs (t : Nat) : Nat := t % TICKS_PERIOD

/-- The MicroPython face of `_ticks_diff a b` (`time.ticks_diff`): the
signed difference of two tick values, reduced into
`[-TICKS_HALF, TICKS_HALF)`. -/
def ticksDiffUpy (a b : Int) : Int :=
  (a - b + (TICKS_HALF : Int)) % (TICKS_PERIOD : Int) - (TICKS_HALF : Int)

/-- The CPython face of `_ticks_diff a b`: plain subtraction `a - b`
of absolute millisecond times. -/
def ticksDiffCpy (a b : Int) : Int := a - b

/-- The `_sleep_ms 2` poll interval used between empty polls in
`UARTPort.read`. -/
def pollIntervalMs : Nat := 2

/-- The polling loop of `UARTPort.read` (the `while` loop in
`src/uart.py`), for the CPython clock (absolute `Nat` milliseconds,
`_ticks_diff` is plain subtraction).

`dev t n` gives the bytes `self._uart.read(n)` returns when polled at
absolute time `t` (device reads are modelled as instantaneous; only the
`_sleep_ms 2` after an empty poll advances the clock).  Returns the
final time together with the accumulated bytes. -/
def readLoop (dev : Nat → Nat → List Nat) (size deadline : Nat)
    (time : Nat) (chunks : List Nat) : Nat × List Nat :=
  if h : chunks.length < size ∧ time < deadline then
    if hi : dev time (size - chunks.length) = [] then
      readLoop dev size deadline (time + pollIntervalMs) chunks
    else
      readLoop dev size deadline time (chunks ++ dev time (size - chunks.length))
  else
    (time, chunks)
termination_by (size - chunks.length) + (deadline - time)
decreasing_by
  · simp only [pollIntervalMs]
    omega
  · have hpos : 0 < (dev time (size - chunks.length)).length :=
      List.length_pos.mpr hi
    simp only [List.length_append]
    omega

/-- The connection handle stored in `UARTPort._uart`: either the mock
sentinel (`self._uart = True`) or a `machine.UART` object constructed
from the configured port, baud rate and pins. -/
inductive Handle
  | mock
  | machine (port baudrate : Nat) (tx rx : Option Nat)

/-- The `UARTPort` object of `src/uart.py`: configuration fields set in
`__init__`, the `_use_mock` flag (`MachineUART is None`) and the
`_uart` handle (`None` while closed). -/
structure UARTPort where
  port : Nat
  baudrate : Nat
  tx : Option Nat
  rx : Option Nat
  timeout_ms : Nat
  use_mock : Bool
  uart : Option Handle

/-- `UARTPort.__init__`: stores the configuration; `_use_mock` is set iff
the `machine` module is unavailable; `_uart` starts as `None`. -/
def mkUARTPort (machineAvailable : Bool) (port baudrate : Nat)
    (tx rx : Option Nat) (timeout_ms : Nat) : UARTPort :=
  { port := port, baudrate := baudrate, tx := tx, rx := rx,
    timeout_ms := timeout_ms, use_mock := !machineAvailable, uart := none }

/-- `UARTPort.open`: returns immediately when `_uart` is already set;
otherwise installs the mock sentinel (mock mode) or a `machine.UART`
built from the configured parameters. -/
def UARTPort.openPort (p : UARTPort) : UARTPort :=
  match p.uart with
  | some _ => p
  | none =>
    if p.use_mock then { p with uart := some Handle.mock }
    else { p with uart := some (Handle.machine p.port p.baudrate p.tx p.rx) }

/-- `UARTPort.close`: returns immediately when `_uart` is `None`;
otherwise releases the handle (mock: drop sentinel; real: `deinit`) and
sets `_uart = None`. -/
def UARTPort.closePort (p : UARTPort) : UARTPort :=
  match p.uart with
  | none => p
  | some _ => { p with uart := none }

/-- `UARTPort.write`: opens the port first if `_uart` is `None`; in mock
mode records the bytes and returns `len(data)`; otherwise returns what
`self._uart.write(data)` returns (`devWrite` models the machine-level
write). -/
def UARTPort.write (p : UARTPort) (devWrite : List Nat → Nat)
    (data : List Nat) : UARTPort × Nat :=
  let p1 := match p.uart with
    | none => p.openPort
    | some _ => p
  if p1.use_mock then (p1, data.length)
  else (p1, devWrite data)

/-- `UARTPort.read`: opens the port first if `_uart` is `None`; in mock
mode returns `b""` at once; otherwise computes the effective timeout
(`timeout_ms` argument if given, else the configured default), sets
`deadline = now + timeout` and runs the polling loop.  `t0` is the
absolute current time in milliseconds; the result carries the updated
port, the finishing time and the bytes read. -/
def UARTPort.read (p : UARTPort) (dev : Nat → Nat → List Nat)
    (size : Nat) (timeout_ms : Option Nat) (t0 : Nat) :
    UARTPort × Nat × List Nat :=
  let p1 := match p.uart with
    | none => p.openPort
    | some _ => p
  if p1.use_mock then (p1, t0, [])
  else
    let effective_timeout := timeout_ms.getD p.timeout_ms
    let r := readLoop dev size (t0 + effective_timeout) t0 []
    (p1, r.1, r.2)

end Uart

namespace URM37

/-- `URM37.CMD_DISTANCE`. -/
def CMD_DISTANCE : Nat := 0x22

/-- `URM37.CMD_TEMPERATURE`. -/
def CMD_TEMPERATURE : Nat := 0x11

/-- `URM37.FRAME_LENGTH`. -/
def FRAME_LENGTH : Nat := 4

/-- `URM37._parse_frame frame expected_cmd`: `None` unless the frame has
exactly 4 bytes, its command byte equals `expected_cmd` and its fourth
byte equals `(cmd + high + low) & 0xFF`; on success returns
`(high << 8) | low`. -/
def parse_frame (frame : List Nat) (expected_cmd : Nat) : Option Nat :=
  if frame.length ≠ FRAME_LENGTH then none
  else
    match frame with
    | [cmd, high, low, checksum] =>
      if cmd ≠ expected_cmd then none
      else if ((cmd + high + low) &&& 0xFF) ≠ checksum then none
      else some ((high <<< 8) ||| low)
    | _ => none

/-- The 4-byte command frame built inside `URM37._send_command`:
`bytes([command, 0x00, 0x00, (command + 0x00 + 0x00) & 0xFF])`. -/
def send_command_frame (command : Nat) : List Nat :=
  [command, 0x00, 0x00, (command + 0x00 + 0x00) &&& 0xFF]

/-- The byte-level channel beneath the driver, as the driver uses it:
`write data` is `self.uart.write(data)` and `read size timeout` is
`self.uart.read(size, timeout_ms=timeout)`.  An `Except.error` models a
transport-level exception propagating out of the call. -/
structure Transport where
  write : List Nat → Except String Nat
  read : Nat → Nat → Except String (List Nat)

/-- `URM37.measure_distance_cm`: sends the `CMD_DISTANCE` command frame,
reads `FRAME_LENGTH` bytes with the measurement timeout, returns `None`
on a short read and otherwise the parse result. -/
def measure_distance_cm (t : Transport) (measurement_timeout_ms : Nat) :
    Except String (Option Nat) := do
  let _ ← t.write (send_command_frame CMD_DISTANCE)
  let raw ← t.read FRAME_LENGTH measurement_timeout_ms
  if raw.length ≠ FRAME_LENGTH then
    return none
  return parse_frame raw CMD_DISTANCE

/-- `URM37.read_temperature_c`: sends the `CMD_TEMPERATURE` command
frame, reads `FRAME_LENGTH` bytes, returns `None` on a short read or
failed parse, and otherwise `value / 10.0` (Python float division
modelled as exact division in `ℚ`). -/
def read_temperature_c (t : Transport) (measurement_timeout_ms : Nat) :
    Except String (Option ℚ) := do
  let _ ← t.write (send_command_frame CMD_TEMPERATURE)
  let raw ← t.read FRAME_LENGTH measurement_timeout_ms
  if raw.length ≠ FRAME_LENGTH then
    return none
  match parse_frame raw CMD_TEMPERATURE with
  | none => return none
  | some value => return some ((value : ℚ) / 10)

end URM37

/-- Closed form of `_parse_frame` on a 4-byte frame: it validates exactly
when the command byte matches and the checksum byte equals the mod-256
sum of the first three bytes, and then returns `(high << 8) | low`. -/
theorem parse_frame_eq_if (b0 b1 b2 b3 e : Nat) :
    URM37.parse_frame [b0, b1, b2, b3] e =
      if b0 = e ∧ b3 = (b0 + b1 + b2) % 256 then some ((b1 <<< 8) ||| b2)
      else none := by
  have hmask : (b0 + b1 + b2) &&& 0xFF = (b0 + b1 + b2) % 256 := by
    simpa using Nat.and_pow_two_sub_one_eq_mod (b0 + b1 + b2) 8
  unfold URM37.parse_frame
  simp only [URM37.FRAME_LENGTH, List.length_cons, List.length_nil, hmask]
  by_cases h0 : b0 = e
  · subst h0
    by_cases h3 : b3 = (b0 + b1 + b2) % 256
    · simp [h3]
    · have h3x : ¬(b0 + b1 + b2) % 256 = b3 := fun hx => h3 hx.symm
      simp [h3, h3x]
  · simp [h0]

/-- **C2.** `_parse_frame` is a pure function of its inputs: a 4-byte
frame `[b0, b1, b2, b3]` validates (returns a value rather than `None`)
iff `b0` equals the expected command and `b3` equals
`(b0 + b1 + b2) % 256`; any frame whose length is not 4 yields `None`. -/
theorem parse_frame_pure_characterization (b0 b1 b2 b3 e : Nat) :
    ((URM37.parse_frame [b0, b1, b2, b3] e).isSome ↔
      b0 = e ∧ b3 = (b0 + b1 + b2) % 256) ∧
    ∀ frame : List Nat, frame.length ≠ 4 → URM37.parse_frame frame e = none := by
  constructor
  · rw [URM37.parse_frame]
    simp only [List.length_cons, List.length_nil, URM37.FRAME_LENGTH]
    norm_num
    rw [Nat.and_pow_two_sub_one_eq_mod (b0 + b1 + b2) 8]
    by_cases h0 : b0 = e
    · by_cases h3 : (b0 + b1 + b2) % 256 = b3
      · simp [h0, h3]
        omega
      · simp [h0, h3]
        omega
    · simp [h0]
  · intro frame hlen
    unfold URM37.parse_frame
    have hne : frame.length ≠ URM37.FRAME_LENGTH := by
      simpa [URM37.FRAME_LENGTH] using hlen
    rw [if_pos hne]

/-- **C2 witness.** The characterization applied at concrete frames: the
valid distance frame `[0x22, 0x00, 0xC8, 0xEA]` validates, and a 3-byte
input yields `None`. -/
theorem parse_frame_pure_characterization_witness :
    (URM37.parse_frame [0x22, 0x00, 0xC8, 0xEA] 0x22).isSome ∧
    URM37.parse_frame [0x22, 0x00, 0xC8] 0x22 = none := by
  refine ⟨(parse_frame_pure_characterization 0x22 0x00 0xC8 0xEA 0x22).1.mpr
    (by norm_num), (parse_frame_pure_characterization 0 0 0 0 0x22).2
    [0x22, 0x00, 0xC8] (by norm_num)⟩

/-- **C3.** Round-trip: for every command code `c` (a byte), the frame
built by `_send_command` is `[c, 0x00, 0x00, c % 256]`, and validating it
with `_parse_frame` against expected command `c` succeeds with value 0. -/
theorem send_command_round_trip (c : Nat) (hc : c < 256) :
    URM37.send_command_frame c = [c, 0x00, 0x00, c % 256] ∧
    URM37.parse_frame (URM37.send_command_frame c) c = some 0 := by
  have hmask : (c + 0x00 + 0x00) &&& 0xFF = c % 256 := by
    simpa using Nat.and_pow_two_sub_one_eq_mod c 8
  constructor
  · rw [URM37.send_command_frame, hmask]
  · rw [URM37.send_command_frame, URM37.parse_frame]
    simp [URM37.FRAME_LENGTH]

/-- **C3 witness.** The round trip at the concrete distance command
`0x22`. -/
theorem send_command_round_trip_witness :
    URM37.send_command_frame 0x22 = [0x22, 0x00, 0x00, 0x22] ∧
    URM37.parse_frame (URM37.send_command_frame 0x22) 0x22 = some 0 := by
  have h := send_command_round_trip 0x22 (by norm_num)
  exact ⟨h.1.trans (by norm_num), h.2⟩

/-- **C1.** For every received 4-byte frame, `measure_distance_cm` returns
`Except.ok` of the big-endian 16-bit value `(high <<< 8) ||| low` exactly
when the command byte of the frame equals `CMD_DISTANCE` and its checksum
validates; a short read yields `Except.ok none`, as does a
command-mismatched or checksum-failing frame — in particular a valid
`CMD_TEMPERATURE` frame is never reported as a distance. -/
theorem measure_distance_cm_spec (t : URM37.Transport) (τ n b0 b1 b2 b3 : Nat)
    (hw : t.write (URM37.send_command_frame URM37.CMD_DISTANCE) = Except.ok n) :
    (∀ raw : List Nat, t.read URM37.FRAME_LENGTH τ = Except.ok raw →
      raw.length < 4 → URM37.measure_distance_cm t τ = Except.ok none) ∧
    (t.read URM37.FRAME_LENGTH τ = Except.ok [b0, b1, b2, b3] →
      URM37.measure_distance_cm t τ =
        Except.ok (if b0 = URM37.CMD_DISTANCE ∧ b3 = (b0 + b1 + b2) % 256
          then some ((b1 <<< 8) ||| b2) else none)) ∧
    (t.read URM37.FRAME_LENGTH τ =
        Except.ok [URM37.CMD_TEMPERATURE, b1, b2,
          (URM37.CMD_TEMPERATURE + b1 + b2) % 256] →
      URM37.measure_distance_cm t τ = Except.ok none) := by
  refine ⟨?_, ?_, ?_⟩
  · intro raw hr hshort
    unfold URM37.measure_distance_cm
    rw [hw, hr]
    have hne : raw.length ≠ URM37.FRAME_LENGTH := by
      simp only [URM37.FRAME_LENGTH]
      omega
    simp [Bind.bind, Except.bind, Pure.pure, Except.pure, hne]
  · intro hr
    unfold URM37.measure_distance_cm
    rw [hw, hr]
    simp [Bind.bind, Except.bind, Pure.pure, Except.pure, URM37.FRAME_LENGTH,
      parse_frame_eq_if]
  · intro hr
    unfold URM37.measure_distance_cm
    rw [hw, hr]
    simp [Bind.bind, Except.bind, Pure.pure, Except.pure, URM37.FRAME_LENGTH,
      parse_frame_eq_if, URM37.CMD_TEMPERATURE, URM37.CMD_DISTANCE]

/-- **C1 witness.** On a transport answering the valid distance frame
`[0x22, 0x00, 0xC8, 0xEA]`, `measure_distance_cm` reports 200 cm. -/
theorem measure_distance_cm_spec_witness :
    URM37.measure_distance_cm
      ⟨fun _ => Except.ok 4, fun _ _ => Except.ok [0x22, 0x00, 0xC8, 0xEA]⟩
      120 = Except.ok (some 200) := by
  have h := (measure_distance_cm_spec
    ⟨fun _ => Except.ok 4, fun _ _ => Except.ok [0x22, 0x00, 0xC8, 0xEA]⟩
    120 4 0x22 0x00 0xC8 0xEA rfl).2.1 rfl
  rw [h]
  norm_num [URM37.CMD_DISTANCE]

/-- **C4.** `read_temperature_c` follows the same request/validation flow
with `CMD_TEMPERATURE` and on a valid frame divides the raw big-endian
16-bit value by 10 (exact division in `ℚ` models the float division);
short reads yield `Except.ok none`; raw value 205 converts to 20.5 °C and
raw value 0 to 0.0 °C. -/
theorem read_temperature_c_spec (t : URM37.Transport) (τ n b0 b1 b2 b3 : Nat)
    (hw : t.write (URM37.send_command_frame URM37.CMD_TEMPERATURE) = Except.ok n) :
    (∀ raw : List Nat, t.read URM37.FRAME_LENGTH τ = Except.ok raw →
      raw.length < 4 → URM37.read_temperature_c t τ = Except.ok none) ∧
    (t.read URM37.FRAME_LENGTH τ = Except.ok [b0, b1, b2, b3] →
      URM37.read_temperature_c t τ =
        Except.ok (if b0 = URM37.CMD_TEMPERATURE ∧ b3 = (b0 + b1 + b2) % 256
          then some ((((b1 <<< 8) ||| b2 : Nat) : ℚ) / 10) else none)) ∧
    URM37.read_temperature_c
      ⟨fun _ => Except.ok 4, fun _ _ => Except.ok [0x11, 0x00, 0xCD, 0xDE]⟩
      τ = Except.ok (some (20.5 : ℚ)) ∧
    URM37.read_temperature_c
      ⟨fun _ => Except.ok 4, fun _ _ => Except.ok [0x11, 0x00, 0x00, 0x11]⟩
      τ = Except.ok (some (0 : ℚ)) := by
  refine ⟨?_, ?_, ?_, ?_⟩
  · intro raw hr hshort
    unfold URM37.read_temperature_c
    rw [hw, hr]
    have hne : raw.length ≠ URM37.FRAME_LENGTH := by
      simp only [URM37.FRAME_LENGTH]
      omega
    simp [Bind.bind, Except.bind, Pure.pure, Except.pure, hne]
  · intro hr
    unfold URM37.read_temperature_c
    rw [hw, hr]
    by_cases hc : b0 = URM37.CMD_TEMPERATURE ∧ b3 = (b0 + b1 + b2) % 256
    · simp [Bind.bind, Except.bind, Pure.pure, Except.pure, URM37.FRAME_LENGTH,
        parse_frame_eq_if, hc]
    · simp [Bind.bind, Except.bind, Pure.pure, Except.pure, URM37.FRAME_LENGTH,
        parse_frame_eq_if, hc]
  · unfold URM37.read_temperature_c
    simp [Bind.bind, Except.bind, Pure.pure, Except.pure, URM37.FRAME_LENGTH,
      parse_frame_eq_if, URM37.CMD_TEMPERATURE]
    norm_num
  · unfold URM37.read_temperature_c
    simp [Bind.bind, Except.bind, Pure.pure, Except.pure, URM37.FRAME_LENGTH,
      parse_frame_eq_if, URM37.CMD_TEMPERATURE]

/-- **C4 witness.** The flow applied on a transport answering the valid
temperature frame `[0x11, 0x00, 0xCD, 0xDE]` (raw value 205): the driver
reports 20.5 °C. -/
theorem read_temperature_c_spec_witness :
    URM37.read_temperature_c
      ⟨fun _ => Except.ok 4, fun _ _ => Except.ok [0x11, 0x00, 0xCD, 0xDE]⟩
      120 = Except.ok (some (20.5 : ℚ)) :=
  (read_temperature_c_spec
    ⟨fun _ => Except.ok 4, fun _ _ => Except.ok [0x11, 0x00, 0xCD, 0xDE]⟩
    120 4 0x11 0x00 0xCD 0xDE rfl).2.2.1

/-- **C5.** The driver never raises an error of its own: whenever the
transport write and read both succeed — with any byte sequence at all —
`measure_distance_cm` and `read_temperature_c` return `Except.ok` of a
value or of the uniform `none` marker; and any `Except.error` coming out
of the driver is exactly a transport write or read fault propagating. -/
theorem driver_never_raises (t : URM37.Transport) (τ : Nat) :
    (∀ n raw, t.write (URM37.send_command_frame URM37.CMD_DISTANCE) = Except.ok n →
      t.read URM37.FRAME_LENGTH τ = Except.ok raw →
      ∃ r : Option Nat, URM37.measure_distance_cm t τ = Except.ok r) ∧
    (∀ n raw, t.write (URM37.send_command_frame URM37.CMD_TEMPERATURE) = Except.ok n →
      t.read URM37.FRAME_LENGTH τ = Except.ok raw →
      ∃ r : Option ℚ, URM37.read_temperature_c t τ = Except.ok r) ∧
    (∀ e, URM37.measure_distance_cm t τ = Except.error e →
      t.write (URM37.send_command_frame URM37.CMD_DISTANCE) = Except.error e ∨
      ∃ n, t.write (URM37.send_command_frame URM37.CMD_DISTANCE) = Except.ok n ∧
        t.read URM37.FRAME_LENGTH τ = Except.error e) ∧
    (∀ e, URM37.read_temperature_c t τ = Except.error e →
      t.write (URM37.send_command_frame URM37.CMD_TEMPERATURE) = Except.error e ∨
      ∃ n, t.write (URM37.send_command_frame URM37.CMD_TEMPERATURE) = Except.ok n ∧
        t.read URM37.FRAME_LENGTH τ = Except.error e) := by
  refine ⟨?_, ?_, ?_, ?_⟩
  · intro n raw hw hr
    unfold URM37.measure_distance_cm
    rw [hw, hr]
    by_cases h : raw.length = URM37.FRAME_LENGTH
    · exact ⟨URM37.parse_frame raw URM37.CMD_DISTANCE,
        by simp [Bind.bind, Except.bind, Pure.pure, Except.pure, h]⟩
    · exact ⟨none, by simp [Bind.bind, Except.bind, Pure.pure, Except.pure, h]⟩
  · intro n raw hw hr
    unfold URM37.read_temperature_c
    rw [hw, hr]
    by_cases h : raw.length = URM37.FRAME_LENGTH
    · cases hp : URM37.parse_frame raw URM37.CMD_TEMPERATURE with
      | none =>
        exact ⟨none, by simp [Bind.bind, Except.bind, Pure.pure, Except.pure, h, hp]⟩
      | some v =>
        exact ⟨some ((v : ℚ) / 10),
          by simp [Bind.bind, Except.bind, Pure.pure, Except.pure, h, hp]⟩
    · exact ⟨none, by simp [Bind.bind, Except.bind, Pure.pure, Except.pure, h]⟩
  · intro e he
    unfold URM37.measure_distance_cm at he
    cases hwr : t.write (URM37.send_command_frame URM37.CMD_DISTANCE) with
    | error e1 =>
      rw [hwr] at he
      simp only [Bind.bind, Except.bind] at he
      have h1 : e1 = e := by simpa using he
      exact Or.inl (by rw [h1])
    | ok n =>
      rw [hwr] at he
      cases hrr : t.read URM37.FRAME_LENGTH τ with
      | error e2 =>
        rw [hrr] at he
        simp only [Bind.bind, Except.bind] at he
        have h2 : e2 = e := by simpa using he
        exact Or.inr ⟨n, rfl, by rw [h2]⟩
      | ok raw =>
        rw [hrr] at he
        by_cases h : raw.length = URM37.FRAME_LENGTH <;>
          simp [Bind.bind, Except.bind, Pure.pure, Except.pure, h] at he
  · intro e he
    unfold URM37.read_temperature_c at he
    cases hwr : t.write (URM37.send_command_frame URM37.CMD_TEMPERATURE) with
    | error e1 =>
      rw [hwr] at he
      simp only [Bind.bind, Except.bind] at he
      have h1 : e1 = e := by simpa using he
      exact Or.inl (by rw [h1])
    | ok n =>
      rw [hwr] at he
      cases hrr : t.read URM37.FRAME_LENGTH τ with
      | error e2 =>
        rw [hrr] at he
        simp only [Bind.bind, Except.bind] at he
        have h2 : e2 = e := by simpa using he
        exact Or.inr ⟨n, rfl, by rw [h2]⟩
      | ok raw =>
        rw [hrr] at he
        by_cases h : raw.length = URM37.FRAME_LENGTH
        · cases hp : URM37.parse_frame raw URM37.CMD_TEMPERATURE <;>
            simp [Bind.bind, Except.bind, Pure.pure, Except.pure, h, hp] at he
        · simp [Bind.bind, Except.bind, Pure.pure, Except.pure, h] at he

/-- **C5 witness.** On a transport whose read yields no bytes at all, the
driver completes normally (with the `none` marker), raising nothing. -/
theorem driver_never_raises_witness :
    ∃ r : Option Nat,
      URM37.measure_distance_cm
        ⟨fun _ => Except.ok 4, fun _ _ => Except.ok []⟩ 120 = Except.ok r :=
  (driver_never_raises ⟨fun _ => Except.ok 4, fun _ _ => Except.ok []⟩ 120).1
    4 [] rfl rfl

/-- Invariant of the polling loop: its finishing time never exceeds the
start time or one tick past the deadline (`deadline + 1`, since an
iteration only starts strictly before the deadline and a sleep adds
`pollIntervalMs = 2`). -/
theorem readLoop_fst_le (dev : Nat → Nat → List Nat) (size deadline time : Nat)
    (chunks : List Nat) :
    (Uart.readLoop dev size deadline time chunks).1 ≤ max time (deadline + 1) := by
  induction time, chunks using Uart.readLoop.induct dev size deadline with
  | case1 time chunks h hi ih =>
    rw [Uart.readLoop, dif_pos h, dif_pos hi]
    have h2 : time < deadline := h.2
    have hp : Uart.pollIntervalMs = 2 := rfl
    omega
  | case2 time chunks h hi ih =>
    rw [Uart.readLoop, dif_pos h, dif_neg hi]
    exact ih
  | case3 time chunks h =>
    rw [Uart.readLoop, dif_neg h]
    simp

/-- Invariant of the polling loop: when each device poll returns at most
the requested number of bytes, the accumulated bytes never exceed
`size`. -/
theorem readLoop_snd_le (dev : Nat → Nat → List Nat)
    (hdev : ∀ t n, (dev t n).length ≤ n) (size deadline time : Nat)
    (chunks : List Nat) (hlen : chunks.length ≤ size) :
    ((Uart.readLoop dev size deadline time chunks).2).length ≤ size := by
  induction time, chunks using Uart.readLoop.induct dev size deadline with
  | case1 time chunks h hi ih =>
    rw [Uart.readLoop, dif_pos h, dif_pos hi]
    exact ih hlen
  | case2 time chunks h hi ih =>
    rw [Uart.readLoop, dif_pos h, dif_neg hi]
    refine ih ?_
    have := hdev time (size - chunks.length)
    simp only [List.length_append]
    omega
  | case3 time chunks h =>
    rw [Uart.readLoop, dif_neg h]
    exact hlen

/-- **C6.** `UARTPort.read` always terminates and returns within the
timeout bound plus one poll interval: assuming each underlying device
poll yields at most the requested byte count, the returned byte sequence
has length at most `size` (possibly shorter or empty, never an error)
and the finishing time is at most `t0 + effective timeout +
pollIntervalMs`. -/
theorem uart_read_terminates_within_bound (p : Uart.UARTPort)
    (dev : Nat → Nat → List Nat) (size : Nat) (tm : Option Nat) (t0 : Nat)
    (hdev : ∀ t n, (dev t n).length ≤ n) :
    ((p.read dev size tm t0).2.2).length ≤ size ∧
    (p.read dev size tm t0).2.1 ≤ t0 + tm.getD p.timeout_ms + Uart.pollIntervalMs := by
  have hp : Uart.pollIntervalMs = 2 := rfl
  have hmo : (p.openPort).use_mock = p.use_mock := by
    unfold Uart.UARTPort.openPort
    cases hu : p.uart
    · by_cases hx : p.use_mock <;> simp [hx]
    · rfl
  have h1 := readLoop_fst_le dev size (t0 + tm.getD p.timeout_ms) t0 []
  have h2 := readLoop_snd_le dev hdev size (t0 + tm.getD p.timeout_ms) t0 [] (by simp)
  unfold Uart.UARTPort.read
  cases hu : p.uart with
  | none =>
    cases hm : p.use_mock with
    | true => refine ⟨?_, ?_⟩ <;> simp [hmo, hm] <;> omega
    | false => refine ⟨?_, ?_⟩ <;> simp [hmo, hm] <;> omega
  | some hdl =>
    cases hm : p.use_mock with
    | true => refine ⟨?_, ?_⟩ <;> simp [hm] <;> omega
    | false => refine ⟨?_, ?_⟩ <;> simp [hm] <;> omega

/-- **C6 witness.** A real-mode port polling a silent device with a
120 ms timeout from time 1000: at most 4 bytes come back and the call
finishes by 1000 + 120 + 2. -/
theorem uart_read_terminates_within_bound_witness :
    (((Uart.mkUARTPort true 0 9600 none none 200).read (fun _ _ => [])
        4 (some 120) 1000).2.2).length ≤ 4 ∧
    ((Uart.mkUARTPort true 0 9600 none none 200).read (fun _ _ => [])
        4 (some 120) 1000).2.1 ≤ 1000 + (some 120).getD 200 + Uart.pollIntervalMs := by
  have h := uart_read_terminates_within_bound
    (Uart.mkUARTPort true 0 9600 none none 200) (fun _ _ => [])
    4 (some 120) 1000 (fun _ _ => by simp)
  simpa [Uart.mkUARTPort] using h

/-- **C7.** The deadline computation is wraparound-safe: for every
starting absolute time `t0` — including values whose tick counter wraps
during the read — when the true elapsed time `e` is still below the
timeout (and the timeout is below half the tick period), the deadline
comparison `_ticks_diff (deadline, now)` computed with the modular
signed-difference arithmetic equals `tmo - e` and is still positive, so
clock rollover never makes the deadline appear already expired. -/
theorem ticks_deadline_wraparound_safe (t0 e tmo : Nat)
    (h1 : e < tmo) (h2 : tmo < Uart.TICKS_HALF) :
    Uart.ticksDiffUpy ((Uart.ticksMs t0 : Int) + tmo) (Uart.ticksMs (t0 + e)) =
      (tmo : Int) - e ∧
    0 < Uart.ticksDiffUpy ((Uart.ticksMs t0 : Int) + tmo) (Uart.ticksMs (t0 + e)) := by
  unfold Uart.ticksDiffUpy Uart.ticksMs Uart.TICKS_PERIOD Uart.TICKS_HALF at *
  push_cast
  constructor <;> omega

/-- **C7 witness.** Concretely at `t0 = 2 ^ 30 - 24` with 50 ms elapsed
(so the tick counter has wrapped) and a 120 ms timeout, the deadline
comparison still reports 70 ms remaining. -/
theorem ticks_deadline_wraparound_safe_witness :
    Uart.ticksDiffUpy ((Uart.ticksMs 1073741800 : Int) + 120)
      (Uart.ticksMs (1073741800 + 50)) = (120 : Int) - 50 ∧
    0 < Uart.ticksDiffUpy ((Uart.ticksMs 1073741800 : Int) + 120)
      (Uart.ticksMs (1073741800 + 50)) :=
  ticks_deadline_wraparound_safe 1073741800 50 120 (by norm_num)
    (by norm_num [Uart.TICKS_HALF])

/-- **C8.** Redundant lifecycle operations are no-ops: `open()` on an
already-open port returns the port with the handle and every
configuration field unchanged, and `close()` on an already-closed port
leaves the state unchanged. -/
theorem uart_lifecycle_noop (p : Uart.UARTPort) :
    (p.uart.isSome → p.openPort = p) ∧ (p.uart = none → p.closePort = p) := by
  constructor
  · intro h
    unfold Uart.UARTPort.openPort
    cases hu : p.uart with
    | some hdl => rfl
    | none =>
      rw [hu] at h
      simp at h
  · intro h
    unfold Uart.UARTPort.closePort
    rw [h]

/-- **C8 witness.** A concrete already-open mock port is unchanged by
`open()`, and a concrete closed port is unchanged by `close()`. -/
theorem uart_lifecycle_noop_witness :
    (⟨0, 9600, none, none, 200, true, some Uart.Handle.mock⟩ :
        Uart.UARTPort).openPort =
      ⟨0, 9600, none, none, 200, true, some Uart.Handle.mock⟩ ∧
    (⟨0, 9600, none, none, 200, true, none⟩ : Uart.UARTPort).closePort =
      ⟨0, 9600, none, none, 200, true, none⟩ :=
  ⟨(uart_lifecycle_noop ⟨0, 9600, none, none, 200, true,
      some Uart.Handle.mock⟩).1 rfl,
   (uart_lifecycle_noop ⟨0, 9600, none, none, 200, true, none⟩).2 rfl⟩

/-- **C9.** When the `machine` module is unavailable the port falls back
to mock mode: `open()` succeeds without hardware (installing the mock
sentinel), `write(data)` accepts the bytes and returns `len(data)`, and
`read` returns the empty byte sequence. -/
theorem mock_mode_fallback (port baud tms size t0 : Nat) (tx rx : Option Nat)
    (dev : Nat → Nat → List Nat) (devW : List Nat → Nat) (data : List Nat)
    (tm : Option Nat) :
    ((Uart.mkUARTPort false port baud tx rx tms).openPort).uart =
      some Uart.Handle.mock ∧
    ((Uart.mkUARTPort false port baud tx rx tms).write devW data).2 =
      data.length ∧
    ((Uart.mkUARTPort false port baud tx rx tms).read dev size tm t0).2.2 = [] :=
  ⟨rfl, rfl, rfl⟩

/-- **C10.** Implicit auto-open: `write()` or `read()` on a port whose
handle is unset (never opened, or closed) implicitly opens it first, so
after either call returns the port is open. -/
theorem write_read_auto_open (p : Uart.UARTPort) (devW : List Nat → Nat)
    (dev : Nat → Nat → List Nat) (data : List Nat) (size : Nat)
    (tm : Option Nat) (t0 : Nat) (h : p.uart = none) :
    ((p.write devW data).1).uart.isSome ∧
    ((p.read dev size tm t0).1).uart.isSome := by
  have hopen : (p.openPort).uart.isSome := by
    unfold Uart.UARTPort.openPort
    rw [h]
    by_cases hm : p.use_mock <;> simp [hm]
  constructor
  · unfold Uart.UARTPort.write
    rw [h]
    by_cases hm : (p.openPort).use_mock <;> simp [hm, hopen]
  · unfold Uart.UARTPort.read
    rw [h]
    by_cases hm : (p.openPort).use_mock <;> simp [hm, hopen]

/-- **C10 witness.** A freshly constructed (never-opened) real-mode port
is open right after a `write` and right after a `read`. -/
theorem write_read_auto_open_witness :
    (((Uart.mkUARTPort true 1 9600 none none 200).write (fun _ => 0)
        [1, 2]).1).uart.isSome ∧
    (((Uart.mkUARTPort true 1 9600 none none 200).read (fun _ _ => [])
        4 none 0).1).uart.isSome :=
  write_read_auto_open (Uart.mkUARTPort true 1 9600 none none 200)
    (fun _ => 0) (fun _ _ => []) [1, 2] 4 none 0 rfl
